import Mathlib

/-!
Verification of the severity-classification and state-aggregation logic of the
check-mysql monitoring plugin, shallowly embedded from
`check-mysql/lib/group-replication.go`.  Database interaction is modelled by
passing the already-materialized query results (or their failures) as inputs,
exactly as the Go functions consume them.
-/

namespace CheckMySQL

/-- The severity values of the mackerelio/checkers library used by the plugin:
`OK`, `WARNING`, `CRITICAL`, `UNKNOWN`. -/
inductive Status where
  | ok
  | warning
  | critical
  | unknown
deriving DecidableEq, Repr

/-- Numeric rank of a severity, following the monitoring convention
OK=0, WARNING=1, CRITICAL=2, UNKNOWN=3. -/
def sevRank : Status → Nat
  | Status.ok => 0
  | Status.warning => 1
  | Status.critical => 2
  | Status.unknown => 3

/-- A check result: severity plus human-readable message
(`checkers.Checker` as produced by `checkers.NewChecker`). -/
structure Checker where
  status : Status
  message : String
deriving DecidableEq, Repr

/-- `checkers.Unknown(msg)`. -/
def unknownChecker (m : String) : Checker :=
  Checker.mk Status.unknown m

/-- Constant `stateOnline` of group-replication.go. -/
def stateOnline : String := "ONLINE"

/-- Constant `stateRecovering` of group-replication.go. -/
def stateRecovering : String := "RECOVERING"

/-- Constant `stateOffline` of group-replication.go. -/
def stateOffline : String := "OFFLINE"

/-- Constant `stateError` of group-replication.go. -/
def stateError : String := "ERROR"

/-- Constant `stateUnreachable` of group-replication.go. -/
def stateUnreachable : String := "UNREACHABLE"

/-- The `groupMember` struct of group-replication.go: `Host` already holds the
rendered `"host:port"` pair (built in `getGroupMembers`). -/
structure groupMember where
  Host : String
  State : String
deriving DecidableEq, Repr

/-- Characters the Go fmt package accepts as directive flags. -/
def isFmtFlag (c : Char) : Bool :=
  c = '#' || c = '0' || c = '-' || c = '+' || c = ' '

/-- Scanner position inside a fmt directive: reading flags, reading the width
digits, or reading the precision digits. -/
inductive DirPhase where
  | flagsPhase
  | widthPhase
  | precPhase
deriving DecidableEq, Repr

/-- The verb of a fmt directive, rendered against an empty argument list:
`%%` renders a literal `%`; any other verb consumes no argument, so Go renders
`%!v(MISSING)`.  The rest of the format follows. -/
def renderVerb (v : Char) (rendered : List Char) : List Char :=
  if v = '%' then '%' :: rendered
  else '%' :: '!' :: v :: ("(MISSING)".data ++ rendered)

/-- Model of the Go fmt scanner over a format string with no further
arguments: `none` is literal text, `some phase` is inside a directive after a
`%`.  Flags, then width digits, then an optional `.` and precision digits are
skipped; a format ending inside a directive renders `%!(NOVERB)`.  Directives
taking `*` width/precision or argument indexes from the argument list are
outside the modelled subset, and padding widths are not applied to the `%%`
output (no realistic member state uses either). -/
def sprintfNoArgsAux : Option DirPhase → List Char → List Char
  | none, [] => []
  | none, c :: cs =>
    if c = '%' then sprintfNoArgsAux (some DirPhase.flagsPhase) cs
    else c :: sprintfNoArgsAux none cs
  | some _, [] => "%!(NOVERB)".data
  | some DirPhase.flagsPhase, c :: cs =>
    if isFmtFlag c then sprintfNoArgsAux (some DirPhase.flagsPhase) cs
    else if c.isDigit then sprintfNoArgsAux (some DirPhase.widthPhase) cs
    else if c = '.' then sprintfNoArgsAux (some DirPhase.precPhase) cs
    else renderVerb c (sprintfNoArgsAux none cs)
  | some DirPhase.widthPhase, c :: cs =>
    if c.isDigit then sprintfNoArgsAux (some DirPhase.widthPhase) cs
    else if c = '.' then sprintfNoArgsAux (some DirPhase.precPhase) cs
    else renderVerb c (sprintfNoArgsAux none cs)
  | some DirPhase.precPhase, c :: cs =>
    if c.isDigit then sprintfNoArgsAux (some DirPhase.precPhase) cs
    else renderVerb c (sprintfNoArgsAux none cs)

/-- Model of Go's `fmt.Sprintf(format)` with no further arguments, as called at
line 113 of group-replication.go (`msg := fmt.Sprintf(localMemberState)`). -/
def sprintfNoArgs (s : String) : String :=
  String.mk (sprintfNoArgsAux none s.data)

/-- `getLocalMemberState` of group-replication.go.  `queryResult` is the
outcome of preparing and executing the local-state query: a failure, or the
`MEMBER_STATE` column of the rows whose `(MEMBER_HOST, MEMBER_PORT)` equals
`(localHostname, localPort)`.  A query failure yields the error
`"couldn't execute query"`; zero rows yield the identity error; otherwise the
state of the first row (`rows[0]`) is returned. -/
def getLocalMemberState (queryResult : Except Unit (List String))
    (localHostname localPort : String) : Except String String :=
  match queryResult with
  | Except.error _ => Except.error "couldn't execute query"
  | Except.ok rows =>
    match rows with
    | [] => Except.error (localHostname ++ ":" ++ localPort ++ " is not a group member")
    | localMemberState :: _ => Except.ok localMemberState

/-- `getGroupMembers` of group-replication.go.  `queryResult` is the outcome of
the peer-anomaly query: a failure, or the `(MEMBER_HOST, MEMBER_PORT,
MEMBER_STATE)` rows whose state is outside ON-LINE/RECOVERING and whose
identity differs from the local one, ordered by host by the query.  Each row
becomes a `groupMember` with `Host = "<host>:<port>"`. -/
def getGroupMembers (queryResult : Except Unit (List (String × String × String))) :
    Except String (List groupMember) :=
  match queryResult with
  | Except.error _ => Except.error "couldn't execute query"
  | Except.ok rows =>
    Except.ok (rows.map (fun r => groupMember.mk (r.1 ++ ":" ++ r.2.1) r.2.2))

/-- The member-state switch of `checkGroupReplication` (lines 114-120):
`checkSt := checkers.OK`, then `ONLINE` keeps OK, `RECOVERING` sets WARNING,
and every other state falls to the `default` branch, CRITICAL. -/
def stateClassifier (localMemberState : String) : Status :=
  if localMemberState = stateOnline then Status.ok
  else if localMemberState = stateRecovering then Status.warning
  else Status.critical

/-- The inputs `checkGroupReplication` consumes once the option parsing is
done: the declared local identity, the `-g`/`--group-members` flag, and the
outcomes of the connection attempt and of the two queries. -/
structure groupReplicationInput where
  localHostname : String
  localPort : String
  GroupMember : Bool
  connect : Except Unit Unit
  localQuery : Except Unit (List String)
  peersQuery : Except Unit (List (String × String × String))

/-- `checkGroupReplication` of group-replication.go, from the point where the
options are parsed: connect, look up the local member state, classify it,
format the base message with `fmt.Sprintf(localMemberState)`, and when the
group-members flag is set, scan the peers and escalate/compose the message. -/
def checkGroupReplication (inp : groupReplicationInput) : Checker :=
  match inp.connect with
  | Except.error _ => unknownChecker "couldn't connect DB"
  | Except.ok _ =>
    match getLocalMemberState inp.localQuery inp.localHostname inp.localPort with
    | Except.error e => unknownChecker e
    | Except.ok localMemberState =>
      let checkSt := stateClassifier localMemberState
      let msg := sprintfNoArgs localMemberState
      if !inp.GroupMember then
        Checker.mk checkSt msg
      else
        match getGroupMembers inp.peersQuery with
        | Except.error e => unknownChecker e
        | Except.ok groupMembers =>
          if groupMembers.length > 0 then
            let checkSt2 := if checkSt = Status.ok then Status.warning else checkSt
            let groupMembersList := groupMembers.map (fun m => m.Host ++ " " ++ m.State)
            let groupMembersState := String.intercalate ", " groupMembersList
            let msg2 := localMemberState ++
              ". Anomalies were detected in other group members: " ++ groupMembersState
            Checker.mk checkSt2 msg2
          else
            Checker.mk checkSt msg

/-- Modelled from the spec: the ThresholdEvaluator in its upper-bound-is-bad
direction (spec section 4.1); the repository files implementing the connection
and replication subcommands are not among the provided sources.
`v > critical` gives CRITICAL; else `v > warning` gives WARNING; else OK;
strictly-greater comparisons throughout, by independent comparisons with no
constraint between the two thresholds. -/
def thresholdUpperBoundBad (v warning critical : Int) : Status :=
  if v > critical then Status.critical
  else if v > warning then Status.warning
  else Status.ok

/-- A concrete run: local member ONLINE, peer detection on, one anomalous peer. -/
def inpOnlinePeer : groupReplicationInput :=
  groupReplicationInput.mk "db1" "3306" true (Except.ok ())
    (Except.ok ["ONLINE"]) (Except.ok [("10.0.0.2", "3306", "OFFLINE")])

/-- A concrete run: zero rows match the local identity. -/
def inpNoLocalRow : groupReplicationInput :=
  groupReplicationInput.mk "db1" "3306" true (Except.ok ())
    (Except.ok []) (Except.ok [])

/-- A concrete run: local member whose state string contains a fmt directive. -/
def inpPercentState : groupReplicationInput :=
  groupReplicationInput.mk "db1" "3306" false (Except.ok ())
    (Except.ok ["%s"]) (Except.ok [])

/-- C2: the state classifier maps ONLINE to OK, RECOVERING to WARNING, and
every other string — OFFLINE, ERROR, UNREACHABLE, the empty string, and any
unrecognized string — to CRITICAL. -/
theorem state_classifier_cases :
    stateClassifier "ONLINE" = Status.ok ∧
    stateClassifier "RECOVERING" = Status.warning ∧
    stateClassifier "OFFLINE" = Status.critical ∧
    stateClassifier "ERROR" = Status.critical ∧
    stateClassifier "UNREACHABLE" = Status.critical ∧
    stateClassifier "" = Status.critical ∧
    ∀ s : String, s ≠ "ONLINE" → s ≠ "RECOVERING" → stateClassifier s = Status.critical := by
  refine ⟨by decide, by decide, by decide, by decide, by decide, by decide, ?_⟩
  intro s h1 h2
  simp [stateClassifier, stateOnline, stateRecovering, h1, h2]

/-- C2 witness: the classifier at the unrecognized string "FOO". -/
theorem state_classifier_cases_witness : stateClassifier "FOO" = Status.critical :=
  state_classifier_cases.2.2.2.2.2.2 "FOO" (by decide) (by decide)

/-- C10: when the local-state query returns two or more rows matching the
declared identity, the state of the first row is used and no error is raised;
only the zero-row case errors. -/
theorem local_state_first_row (localHostname localPort r1 r2 : String) (rs : List String) :
    getLocalMemberState (Except.ok (r1 :: r2 :: rs)) localHostname localPort =
      Except.ok r1 :=
  rfl

/-- C7: whatever the inputs — any local state, any peer rows, peer detection
on or off, connection and queries succeeding or failing — the severity of the
returned check result is OK, WARNING, CRITICAL or UNKNOWN. -/
theorem severity_always_in_range (inp : groupReplicationInput) :
    (checkGroupReplication inp).status = Status.ok ∨
    (checkGroupReplication inp).status = Status.warning ∨
    (checkGroupReplication inp).status = Status.critical ∨
    (checkGroupReplication inp).status = Status.unknown := by
  cases h : (checkGroupReplication inp).status
  · exact Or.inl rfl
  · exact Or.inr (Or.inl rfl)
  · exact Or.inr (Or.inr (Or.inl rfl))
  · exact Or.inr (Or.inr (Or.inr rfl))

/-- C8: the base message is built by `fmt.Sprintf(localMemberState)` with the
state as format string, so a state containing a fmt directive is not returned
character for character: state `"%s"` yields the message `"%!s(MISSING)"`,
not `"%s"`.  States free of directives, such as `"ONLINE"`, are unchanged. -/
theorem base_message_sprintf_directive :
    checkGroupReplication inpPercentState = Checker.mk Status.critical "%!s(MISSING)" ∧
    (checkGroupReplication inpPercentState).message ≠ "%s" ∧
    sprintfNoArgs "ONLINE" = "ONLINE" := by
  refine ⟨by decide, by decide, by decide⟩

/-- A concrete run: local member ONLINE, peer detection off. -/
def inpOnlineNoPeers : groupReplicationInput :=
  groupReplicationInput.mk "db1" "3306" false (Except.ok ())
    (Except.ok ["ONLINE"]) (Except.ok [])

/-- A concrete run: local member ONLINE, peer detection on, peer query fails. -/
def inpPeerFail : groupReplicationInput :=
  groupReplicationInput.mk "db1" "3306" true (Except.ok ())
    (Except.ok ["ONLINE"]) (Except.error ())

/-- C1: with peer detection enabled and a non-empty peer sequence, the
resulting severity is WARNING when the local state alone classifies as OK and
exactly the local severity when that is already WARNING or CRITICAL; hence it
never falls below the peers-disabled severity and never exceeds WARNING when
the local state alone is OK. -/
theorem peer_escalation (inp : groupReplicationInput) (s : String) (rs : List String)
    (prow : String × String × String) (prows : List (String × String × String))
    (hc : inp.connect = Except.ok ())
    (hl : inp.localQuery = Except.ok (s :: rs))
    (hg : inp.GroupMember = true)
    (hp : inp.peersQuery = Except.ok (prow :: prows)) :
    ((checkGroupReplication inp).status =
      if stateClassifier s = Status.ok then Status.warning else stateClassifier s) ∧
    sevRank (checkGroupReplication (groupReplicationInput.mk inp.localHostname
        inp.localPort false inp.connect inp.localQuery inp.peersQuery)).status ≤
      sevRank (checkGroupReplication inp).status ∧
    (stateClassifier s = Status.ok →
      (checkGroupReplication inp).status = Status.warning) := by
  obtain ⟨lh, lp, gm, cn, lq, pq⟩ := inp
  simp only at hc hl hg hp
  subst hc hl hg hp
  refine ⟨?_, ?_, ?_⟩ <;>
    cases h : stateClassifier s <;>
      simp [checkGroupReplication, getLocalMemberState, getGroupMembers, sevRank, h]

/-- C1 witness: an ONLINE local member with one anomalous peer. -/
theorem peer_escalation_witness :
    ((checkGroupReplication inpOnlinePeer).status =
      if stateClassifier "ONLINE" = Status.ok then Status.warning
      else stateClassifier "ONLINE") ∧
    sevRank (checkGroupReplication (groupReplicationInput.mk
        inpOnlinePeer.localHostname inpOnlinePeer.localPort false inpOnlinePeer.connect
        inpOnlinePeer.localQuery inpOnlinePeer.peersQuery)).status ≤
      sevRank (checkGroupReplication inpOnlinePeer).status ∧
    (stateClassifier "ONLINE" = Status.ok →
      (checkGroupReplication inpOnlinePeer).status = Status.warning) :=
  peer_escalation inpOnlinePeer "ONLINE" [] ("10.0.0.2", "3306", "OFFLINE") []
    rfl rfl rfl rfl

/-- C3: with peer detection disabled, or enabled but with an empty peer
sequence, the result is exactly the severity classified from the local state
together with the base message, unmodified. -/
theorem no_peer_frame (inp : groupReplicationInput) (s : String) (rs : List String)
    (hc : inp.connect = Except.ok ())
    (hl : inp.localQuery = Except.ok (s :: rs))
    (h : inp.GroupMember = false ∨ inp.peersQuery = Except.ok []) :
    checkGroupReplication inp = Checker.mk (stateClassifier s) (sprintfNoArgs s) := by
  obtain ⟨lh, lp, gm, cn, lq, pq⟩ := inp
  simp only at hc hl h
  subst hc hl
  rcases h with h | h
  · subst h
    simp [checkGroupReplication, getLocalMemberState]
  · subst h
    cases gm <;>
      simp [checkGroupReplication, getLocalMemberState, getGroupMembers]

/-- C3 witness: an ONLINE local member with peer detection off. -/
theorem no_peer_frame_witness :
    checkGroupReplication inpOnlineNoPeers =
      Checker.mk (stateClassifier "ONLINE") (sprintfNoArgs "ONLINE") :=
  no_peer_frame inpOnlineNoPeers "ONLINE" [] rfl rfl (Or.inl rfl)

/-- C4: when obtaining the local member state fails — the query errors or zero
rows match the declared identity — the result is UNKNOWN, the peer query
outcome is never consulted, and in the zero-row case the message is exactly
the declared identity followed by " is not a group member". -/
theorem local_failure_unknown (inp : groupReplicationInput)
    (hc : inp.connect = Except.ok ())
    (h : (∃ u, inp.localQuery = Except.error u) ∨ inp.localQuery = Except.ok []) :
    (checkGroupReplication inp).status = Status.unknown ∧
    (∀ pq, checkGroupReplication (groupReplicationInput.mk inp.localHostname
        inp.localPort inp.GroupMember inp.connect inp.localQuery pq) =
      checkGroupReplication inp) ∧
    (inp.localQuery = Except.ok [] →
      (checkGroupReplication inp).message =
        inp.localHostname ++ ":" ++ inp.localPort ++ " is not a group member") := by
  obtain ⟨lh, lp, gm, cn, lq, pq⟩ := inp
  simp only at hc h ⊢
  subst hc
  rcases h with ⟨u, h⟩ | h
  · subst h
    exact ⟨rfl, fun _ => rfl, by intro h; cases h⟩
  · subst h
    exact ⟨rfl, fun _ => rfl, fun _ => rfl⟩

/-- C4 witness: zero rows match "db1":"3306" and the result is UNKNOWN with
the identity-naming message, independently of the peer query. -/
theorem local_failure_unknown_witness :
    (checkGroupReplication inpNoLocalRow).status = Status.unknown ∧
    (checkGroupReplication inpNoLocalRow).message =
      "db1" ++ ":" ++ "3306" ++ " is not a group member" :=
  ⟨(local_failure_unknown inpNoLocalRow rfl (Or.inr rfl)).1,
   (local_failure_unknown inpNoLocalRow rfl (Or.inr rfl)).2.2 rfl⟩

/-- C5: when the local state is obtained successfully but peer detection is
enabled and the peer query fails, the result is UNKNOWN with the query-error
message — the local severity and message are discarded entirely. -/
theorem peer_failure_unknown (inp : groupReplicationInput) (s : String)
    (rs : List String) (u : Unit)
    (hc : inp.connect = Except.ok ())
    (hl : inp.localQuery = Except.ok (s :: rs))
    (hg : inp.GroupMember = true)
    (hp : inp.peersQuery = Except.error u) :
    checkGroupReplication inp = Checker.mk Status.unknown "couldn't execute query" := by
  obtain ⟨lh, lp, gm, cn, lq, pq⟩ := inp
  simp only at hc hl hg hp
  subst hc hl hg hp
  simp [checkGroupReplication, getLocalMemberState, getGroupMembers, unknownChecker]

/-- C5 witness: an ONLINE local member whose peer query fails. -/
theorem peer_failure_unknown_witness :
    checkGroupReplication inpPeerFail =
      Checker.mk Status.unknown "couldn't execute query" :=
  peer_failure_unknown inpPeerFail "ONLINE" [] () rfl rfl rfl rfl

/-- C6: with peer detection enabled and a non-empty peer sequence, the message
is the local state, then ". Anomalies were detected in other group members: ",
then one "<host>:<port> <state>" entry per peer in sequence order, joined by
", ". -/
theorem composite_message (inp : groupReplicationInput) (s : String) (rs : List String)
    (prow : String × String × String) (prows : List (String × String × String))
    (hc : inp.connect = Except.ok ())
    (hl : inp.localQuery = Except.ok (s :: rs))
    (hg : inp.GroupMember = true)
    (hp : inp.peersQuery = Except.ok (prow :: prows)) :
    (checkGroupReplication inp).message =
      s ++ ". Anomalies were detected in other group members: " ++
        String.intercalate ", "
          ((prow :: prows).map (fun r => r.1 ++ ":" ++ r.2.1 ++ " " ++ r.2.2)) := by
  obtain ⟨lh, lp, gm, cn, lq, pq⟩ := inp
  simp only at hc hl hg hp
  subst hc hl hg hp
  simp [checkGroupReplication, getLocalMemberState, getGroupMembers,
    Function.comp_def, String.append_assoc]

/-- C6 witness: the composite message for an ONLINE local member and the
single anomalous peer 10.0.0.2:3306 OFFLINE. -/
theorem composite_message_witness :
    (checkGroupReplication inpOnlinePeer).message =
      "ONLINE" ++ ". Anomalies were detected in other group members: " ++
        String.intercalate ", "
          ((("10.0.0.2", "3306", "OFFLINE") :: ([] : List (String × String × String))).map
            (fun r => r.1 ++ ":" ++ r.2.1 ++ " " ++ r.2.2)) :=
  composite_message inpOnlinePeer "ONLINE" [] ("10.0.0.2", "3306", "OFFLINE") []
    rfl rfl rfl rfl

/-- C9 counterexample: the claim quantifies over all warning/critical pairs,
but with warning=10 and critical=5 (thresholds inverted) the value 7 yields
CRITICAL although 7 ≤ warning, so "OK iff v ≤ warning" fails. -/
theorem threshold_claim_fails_inverted :
    thresholdUpperBoundBad 7 10 5 = Status.critical ∧
    ¬ (thresholdUpperBoundBad 7 10 5 = Status.ok ↔ (7 : Int) ≤ 10) := by
  refine ⟨by decide, by decide⟩

/-- C9 amended: for warning ≤ critical, the evaluator returns CRITICAL iff
v > critical, WARNING iff warning < v ≤ critical, and OK iff v ≤ warning;
v = warning yields OK, v = critical yields WARNING when warning < critical,
and 260 against warning=200, critical=250 yields CRITICAL. -/
theorem threshold_upper_bound_iff (v w c : Int) (h : w ≤ c) :
    (thresholdUpperBoundBad v w c = Status.critical ↔ c < v) ∧
    (thresholdUpperBoundBad v w c = Status.warning ↔ w < v ∧ v ≤ c) ∧
    (thresholdUpperBoundBad v w c = Status.ok ↔ v ≤ w) ∧
    thresholdUpperBoundBad w w c = Status.ok ∧
    (w < c → thresholdUpperBoundBad c w c = Status.warning) ∧
    thresholdUpperBoundBad 260 200 250 = Status.critical := by
  refine ⟨?_, ?_, ?_, ?_, ?_, by decide⟩
  · unfold thresholdUpperBoundBad
    split
    case _ h1 => simp; omega
    case _ h1 =>
      split
      case _ h2 => simp; omega
      case _ h2 => simp; omega
  · unfold thresholdUpperBoundBad
    split
    case _ h1 => simp; omega
    case _ h1 =>
      split
      case _ h2 => simp; omega
      case _ h2 => simp; omega
  · unfold thresholdUpperBoundBad
    split
    case _ h1 => simp; omega
    case _ h1 =>
      split
      case _ h2 => simp; omega
      case _ h2 => simp; omega
  · unfold thresholdUpperBoundBad
    rw [if_neg (by omega), if_neg (by omega)]
  · intro hwc
    unfold thresholdUpperBoundBad
    rw [if_neg (by omega), if_pos (by omega)]

/-- C9 witness: the amended threshold properties at v=7, warning=3,
critical=5. -/
theorem threshold_upper_bound_iff_witness :
    (thresholdUpperBoundBad 7 3 5 = Status.critical ↔ (5 : Int) < 7) ∧
    (thresholdUpperBoundBad 7 3 5 = Status.warning ↔ (3 : Int) < 7 ∧ (7 : Int) ≤ 5) ∧
    (thresholdUpperBoundBad 7 3 5 = Status.ok ↔ (7 : Int) ≤ 3) ∧
    thresholdUpperBoundBad 3 3 5 = Status.ok ∧
    ((3 : Int) < 5 → thresholdUpperBoundBad 5 3 5 = Status.warning) ∧
    thresholdUpperBoundBad 260 200 250 = Status.critical :=
  threshold_upper_bound_iff 7 3 5 (by decide)

end CheckMySQL
